import Mathlib

/-!
Verification of the SDO notification / provider subsystem
(`src/sdo-notifications.ts`): the `SdoNotifications` hub, the shared
`Provider.fetchUrl` helper, the built-in `StopProvider`, and the
`CredentialProvider`.  Each TypeScript method is shallowly embedded as a
pure Lean function; timer bookkeeping and the process environment are
made explicit state.  All the definitions come first, the claim theorems
follow at the end of the file.
-/

set_option autoImplicit false

namespace Sdo

/-! ## JSON values

Model of the values `JSON.parse` can produce.  `Json.null` models the
JavaScript `null` value (which `JSON.parse "null"` returns and which the
fetch helper also uses for its failure results). -/

inductive Json where
  | null
  | bool (b : Bool)
  | num (n : Int)
  | str (s : String)
  | arr (elems : List Json)
  | obj (fields : List (String × Json))

/-- JavaScript truthiness of a parsed JSON value. -/
def jsTruthy : Json → Bool
  | Json.null => false
  | Json.bool b => b
  | Json.num n => n != 0
  | Json.str s => s != ""
  | Json.arr _ => true
  | Json.obj _ => true

/-- JavaScript property access `j.k` on a parsed JSON value: fields of an
object are looked up by name; on any non-object (boolean, number, string,
array) the access yields `undefined`, modelled as `none`.  (Access on
`null` would throw, but every call site guards with a null check first.) -/
def getProp (j : Json) (k : String) : Option Json :=
  match j with
  | Json.obj fields => fields.lookup k
  | _ => none

/-- Truthiness of a possibly-`undefined` JavaScript value: `undefined`
(`none`) is falsy. -/
def jsTruthyOpt : Option Json → Bool
  | none => false
  | some j => jsTruthy j

/-! ## The fetch helper `Provider.fetchUrl`

`fetchUrl` wraps one HTTP round trip in a manually constructed promise.
The transport behaviour of a single call is captured by `Transport`:
either the request emits an `error` event, or a response arrives with a
status code (possibly `undefined`, defaulted to `0` by `?? 0`) and a
body string. -/

inductive Transport where
  | connectionError (msg : String)
  | response (statusCode : Option Nat) (body : String)

/-- Outcome of the promise returned by `fetchUrl`: it either fulfils with
a value (`Json.null` models a JavaScript `null` result) or rejects.  A
rejection happens exactly when the promise executor throws
synchronously. -/
inductive FetchResult where
  | resolved (j : Json)
  | rejected (msg : String)

def FetchResult.isRejected : FetchResult → Bool
  | FetchResult.resolved _ => false
  | FetchResult.rejected _ => true

/-- Observable effects of one `fetchUrl` call: the settled promise, the
number of network requests issued, and the number of `console.error`
lines written. -/
structure FetchOut where
  result : FetchResult
  requests : Nat
  errorLogs : Nat

/-- Embedding of `Provider.fetchUrl` (src/sdo-notifications.ts:68-112).

The two host facilities it calls are passed in as parameters:
`urlParses` models whether `new URL s` succeeds (the WHATWG URL
constructor throws a `TypeError` on strings it cannot parse, e.g. the
empty string or any string without a scheme), and `jsonParse` models
`JSON.parse` (`none` = the parse throws).

Branches, in source order:
* `url == null` → resolve `null`; no request, nothing logged;
* `new URL url` throws → the executor throws synchronously, so the
  promise rejects; no request was issued;
* request `error` event → log, resolve `null`;
* status code (defaulted to 0 via `?? 0`) outside [200, 300) → log,
  resolve `null` (the body is still drained but the `end` handler then
  does nothing);
* 2xx and the body parses → resolve with the parsed value;
* 2xx and `JSON.parse` throws → log, resolve `null`. -/
def fetchUrl (urlParses : String → Bool) (jsonParse : String → Option Json)
    (url : Option String) (t : Transport) : FetchOut :=
  match url with
  | none => { result := FetchResult.resolved Json.null, requests := 0, errorLogs := 0 }
  | some u =>
    if urlParses u then
      match t with
      | Transport.connectionError _ =>
        { result := FetchResult.resolved Json.null, requests := 1, errorLogs := 1 }
      | Transport.response statusCode body =>
        let code := statusCode.getD 0
        if code < 200 || 300 <= code then
          { result := FetchResult.resolved Json.null, requests := 1, errorLogs := 1 }
        else
          match jsonParse body with
          | some j => { result := FetchResult.resolved j, requests := 1, errorLogs := 0 }
          | none =>
            { result := FetchResult.resolved Json.null, requests := 1, errorLogs := 1 }
    else
      { result := FetchResult.rejected "TypeError: Invalid URL", requests := 0, errorLogs := 0 }

/-! ## The `StopProvider` poll tick

`StopProvider.initialize` (src/sdo-notifications.ts:126-135) arms an
interval whose callback awaits `fetchUrl` and then runs

  `if (response != null && response.stop) ... this.shouldStopCallback()`.

`stopTick j` is that condition on the awaited value `j`: it decides
whether the tick invokes the stop callback.  A bare JSON value that is
not an object has no `stop` property, so the access yields `undefined`,
which is falsy. -/
def stopTick (j : Json) : Bool :=
  match j with
  | Json.null => false
  | _ => jsTruthyOpt (getProp j "stop")

/-! ## Timer bookkeeping

Both providers keep a single field `timeoutHandle` pointing at the timer
they armed last (`setInterval` for `StopProvider`,
`setTimeout` for `CredentialProvider`).  `TimerState` records that field
together with the runtime view: the set of timers of this provider still
scheduled (`live`) and a fresh-id counter.  `armTimer` is the assignment
`this.timeoutHandle = setInterval(...)` / `setTimeout(...)` performed by
`initialize`; `clearHandle` is the body of `destroy`:

  `if (this.timeoutHandle != null) clearInterval(this.timeoutHandle)`

which cancels the referenced timer but does not reset the field.
Clearing an already-cancelled handle is a no-op in Node, which `erase`
of an absent element models. -/

structure TimerState where
  handle : Option Nat
  live : List Nat
  nextId : Nat
deriving DecidableEq

/-- A freshly constructed provider: no handle, no scheduled timer. -/
def TimerState.fresh : TimerState := { handle := none, live := [], nextId := 0 }

/-- One `initialize` call arming a timer: a new timer id becomes live and
the handle field is overwritten with it (any previously stored handle is
forgotten but its timer stays scheduled). -/
def armTimer (s : TimerState) : TimerState :=
  { handle := some s.nextId, live := s.nextId :: s.live, nextId := s.nextId + 1 }

/-- The body of `destroy`: cancel the timer the handle points at, if any.
The handle field itself is left as-is, exactly as in the source. -/
def clearHandle (s : TimerState) : TimerState :=
  match s.handle with
  | none => s
  | some h => { s with live := s.live.erase h }

/-- Embedding of `destroy` as a fallible computation, where an
`Except.error` would mark a thrown exception.  The body only reads
`this.timeoutHandle` and calls `clearInterval` / `clearTimeout`, and
Node's clear functions accept any argument (including handles already
cleared) without throwing, so no branch produces an error. -/
def destroyRun (s : TimerState) : Except String TimerState :=
  Except.ok (clearHandle s)

/-- External lifecycle calls on one provider instance. -/
inductive LifeOp where
  | init
  | destroy
deriving DecidableEq

/-- Run a sequence of lifecycle calls on a provider instance. -/
def runLife (ops : List LifeOp) (s : TimerState) : TimerState :=
  ops.foldl (fun st op =>
    match op with
    | LifeOp.init => armTimer st
    | LifeOp.destroy => clearHandle st) s

/-- Number of `initialize` calls in a lifecycle sequence. -/
def countInit (ops : List LifeOp) : Nat :=
  ops.count LifeOp.init

/-- Well-formedness of the timer bookkeeping: live timer ids are distinct
and below the fresh-id counter. -/
def TimerState.wf (s : TimerState) : Prop :=
  s.live.Nodup ∧ ∀ i ∈ s.live, i < s.nextId

/-! ## The `SdoNotifications` hub

Hub state: the monotone `stopNeeded` flag and the `allProviders` field,
which is `undefined` until `initialize` has run.  The operations a hub
instance and its providers perform are:

* `SdoOp.initCall n` — `initialize` with `n` caller-supplied
  providers: replaces `allProviders` with a freshly armed list (the
  extras plus the built-in `StopProvider`); it does not touch
  `stopNeeded`;
* `SdoOp.stop` — `stop()`: `this.allProviders?.forEach(x => x.destroy())`;
* `SdoOp.stopTickFire j` — one tick of the built-in `StopProvider`
  whose awaited fetch value is `j`; when `stopTick j` holds the
  callback body `this.stopNeeded = true` runs. -/

structure SdoState where
  stopNeeded : Bool
  allProviders : Option (List TimerState)

/-- State produced by `new SdoNotifications(...)`: flag down, provider
list still `undefined`. -/
def SdoState.new : SdoState := { stopNeeded := false, allProviders := none }

/-- `shouldStop()` returns the current flag. -/
def sdoShouldStop (s : SdoState) : Bool := s.stopNeeded

/-- `stop()`: destroy every provider when the list exists, otherwise the
optional chaining makes the whole call a no-op.  The second component
counts how many `destroy()` calls were attempted. -/
def sdoStop (s : SdoState) : SdoState × Nat :=
  match s.allProviders with
  | none => (s, 0)
  | some ps => ({ s with allProviders := some (ps.map clearHandle) }, ps.length)

/-- `initialize(providers?)`: build the provider set (extras plus the
built-in stop provider) and arm each one.  `stopNeeded` is not
touched. -/
def sdoInit (s : SdoState) (extraCount : Nat) : SdoState :=
  { s with allProviders := some (List.replicate (extraCount + 1) (armTimer TimerState.fresh)) }

inductive SdoOp where
  | initCall (extraCount : Nat)
  | stopCall
  | stopTickFire (j : Json)

def sdoStep (s : SdoState) : SdoOp → SdoState
  | SdoOp.initCall n => sdoInit s n
  | SdoOp.stopCall => (sdoStop s).1
  | SdoOp.stopTickFire j => if stopTick j then { s with stopNeeded := true } else s

def sdoRun (s : SdoState) (ops : List SdoOp) : SdoState :=
  ops.foldl sdoStep s

/-! ## The `CredentialProvider` refresh cycle

`CredentialProvider.initialize` (src/sdo-notifications.ts:167-203)
performs one fetch-and-reschedule cycle.  The payload type it casts the
fetched JSON to carries an expiration epoch (milliseconds) and a record
mapping role keys to credential sets; the record is modelled as an
association list.  The four environment variables the provider may
overwrite are the explicit `AwsEnv` state. -/

structure Credentials where
  accessKeyId : String
  secretAccessKey : String
  sessionToken : String
  region : String
deriving DecidableEq

structure CredentialPayload where
  expirationEpoch : Int
  credentials : List (String × Credentials)
deriving DecidableEq

/-- The four process-environment slots the provider writes
(`AWS_ACCESS_KEY_ID`, `AWS_SECRET_ACCESS_KEY`, `AWS_SESSION_TOKEN`,
`AWS_DEFAULT_REGION`); `none` models an unset variable. -/
structure AwsEnv where
  accessKeyId : Option String
  secretAccessKey : Option String
  sessionToken : Option String
  defaultRegion : Option String
deriving DecidableEq

/-- `credentialTimeBufferMs = 60 * 1000`: the margin subtracted from the
expiration when computing the refresh delay. -/
def credentialTimeBufferMs : Int := 60 * 1000

/-- `CredentialProvider.credentialsKey`: the configured role key. -/
def credentialsKey : String := "AwsAccess"

/-- Observable outcome of one cycle: the environment afterwards, the
delay of the one-shot timer armed for the next cycle (`none` = no timer
armed), and what was logged. -/
structure CredCycle where
  env : AwsEnv
  timerDelayMs : Option Int
  errorLogs : Nat
  localRunLog : Bool
deriving DecidableEq

/-- Embedding of one `CredentialProvider.initialize` cycle.  Inputs: the
awaited fetch result (`none` = the promise resolved to null), the
wall-clock `(new Date()).getTime()` sampled after the fetch completed,
and the environment before the cycle.  Branches, in source order:

* null response → log the local-run line and return; no env writes, no
  timer;
* `response.credentials[credentialsKey]` is `undefined` → log an error
  and return; no env writes, no timer;
* otherwise overwrite the four environment slots and arm a one-shot
  timer for `expirationEpoch - nowMs - credentialTimeBufferMs`
  milliseconds (`new Date(expirationEpoch)).getTime()` is
  `expirationEpoch` itself); the delay is passed to `setTimeout` exactly
  as computed, with no clamping. -/
def credCycleRun (response : Option CredentialPayload) (nowMs : Int) (env : AwsEnv) :
    CredCycle :=
  match response with
  | none => { env := env, timerDelayMs := none, errorLogs := 0, localRunLog := true }
  | some r =>
    match r.credentials.lookup credentialsKey with
    | none => { env := env, timerDelayMs := none, errorLogs := 1, localRunLog := false }
    | some c =>
      { env :=
          { accessKeyId := some c.accessKeyId,
            secretAccessKey := some c.secretAccessKey,
            sessionToken := some c.sessionToken,
            defaultRegion := some c.region },
        timerDelayMs := some (r.expirationEpoch - nowMs - credentialTimeBufferMs),
        errorLogs := 0,
        localRunLog := false }

/-! ## The hub's all-settled join

`SdoNotifications.initialize` (src/sdo-notifications.ts:35-48) maps
`x.initialize()` over the provider set (the caller-supplied providers
followed by the built-in `StopProvider`) and returns
`Promise.allSettled(allPromises)`.  Each provider's initialization
outcome is a parameter (`Except.ok` = its promise fulfils, `Except.error`
= it rejects); `allSettled` converts every outcome into a settled record
and itself always fulfils. -/

inductive Settled (ε : Type) (α : Type) where
  | fulfilled (value : α)
  | rejected (reason : ε)
deriving DecidableEq

def toSettled {ε α : Type} : Except ε α → Settled ε α
  | Except.ok a => Settled.fulfilled a
  | Except.error e => Settled.rejected e

/-- Embedding of `SdoNotifications.initialize`: the promise it returns,
given the initialization outcome of each caller-supplied provider and of
the built-in stop provider. -/
def hubInitRun {ε : Type} (extraInits : List (Except ε Unit)) (stopInit : Except ε Unit) :
    Except ε (List (Settled ε Unit)) :=
  Except.ok ((extraInits ++ [stopInit]).map toSettled)

end Sdo

/-! ## Helper lemmas -/

namespace Sdo

/-- No hub operation ever resets a raised `stopNeeded` flag. -/
theorem sdoStep_stopNeeded_mono (s : SdoState) (op : SdoOp)
    (h : s.stopNeeded = true) : (sdoStep s op).stopNeeded = true := by
  cases op with
  | initCall n => simpa [sdoStep, sdoInit] using h
  | stopCall =>
    cases hp : s.allProviders with
    | none => simpa [sdoStep, sdoStop, hp] using h
    | some ps => simpa [sdoStep, sdoStop, hp] using h
  | stopTickFire j =>
    by_cases ht : stopTick j
    · simp [sdoStep, ht]
    · simpa [sdoStep, ht] using h

/-- Flag monotonicity extends to arbitrary operation sequences. -/
theorem sdoRun_stopNeeded_mono (ops : List SdoOp) (s : SdoState)
    (h : s.stopNeeded = true) : (sdoRun s ops).stopNeeded = true := by
  induction ops generalizing s with
  | nil => simpa [sdoRun] using h
  | cons op rest ih =>
    have hstep := sdoStep_stopNeeded_mono s op h
    simpa [sdoRun, List.foldl_cons] using ih (sdoStep s op) hstep

/-- Unfolding a lifecycle run one operation at a time from the right. -/
theorem runLife_append_one (ops : List LifeOp) (op : LifeOp) (s : TimerState) :
    runLife (ops ++ [op]) s = runLife [op] (runLife ops s) := by
  simp [runLife, List.foldl_append]

theorem runLife_one_init (s : TimerState) : runLife [LifeOp.init] s = armTimer s := rfl

theorem runLife_one_destroy (s : TimerState) :
    runLife [LifeOp.destroy] s = clearHandle s := rfl

/-- A run consisting only of `destroy` calls leaves a fresh instance
fresh: the handle is null, so each `destroy` is a no-op. -/
theorem runLife_no_init_fresh (ops : List LifeOp) (h : countInit ops = 0) :
    runLife ops TimerState.fresh = TimerState.fresh := by
  induction ops with
  | nil => rfl
  | cons op rest ih =>
    cases op with
    | init =>
      exfalso
      simp [countInit, List.count_cons] at h
    | destroy =>
      have hrest : countInit rest = 0 := by
        simpa [countInit, List.count_cons] using h
      have hstep : runLife (LifeOp.destroy :: rest) TimerState.fresh
          = runLife rest (clearHandle TimerState.fresh) := rfl
      have hfresh : clearHandle TimerState.fresh = TimerState.fresh := rfl
      rw [hstep, hfresh]
      exact ih hrest

theorem countInit_append (ops1 ops2 : List LifeOp) :
    countInit (ops1 ++ ops2) = countInit ops1 + countInit ops2 := by
  simp [countInit, List.count_append]

/-- With at most one `initialize` among the lifecycle calls, the
reachable states have at most the handle's own timer live. -/
theorem runLife_le_one_init_shape (ops : List LifeOp) (h : countInit ops ≤ 1) :
    (runLife ops TimerState.fresh).live = [] ∨
      ∃ hd, (runLife ops TimerState.fresh).handle = some hd ∧
        (runLife ops TimerState.fresh).live = [hd] := by
  induction ops using List.reverseRecOn with
  | nil => exact Or.inl rfl
  | append_singleton ops op ih =>
    cases op with
    | init =>
      have hz : countInit ops = 0 := by
        rw [countInit_append] at h
        have hone : countInit [LifeOp.init] = 1 := rfl
        omega
      rw [runLife_append_one, runLife_no_init_fresh ops hz, runLife_one_init]
      exact Or.inr ⟨0, rfl, rfl⟩
    | destroy =>
      have hops : countInit ops ≤ 1 := by
        rw [countInit_append] at h
        have hzero : countInit [LifeOp.destroy] = 0 := rfl
        omega
      rw [runLife_append_one, runLife_one_destroy]
      rcases ih hops with hemp | ⟨hd, hh, hl⟩
      · left
        cases hhandle : (runLife ops TimerState.fresh).handle with
        | none => simp [clearHandle, hhandle, hemp]
        | some x => simp [clearHandle, hhandle, hemp]
      · left
        simp [clearHandle, hh, hl]

theorem wf_fresh : TimerState.fresh.wf := by
  constructor
  · exact List.nodup_nil
  · intro i hi
    simp [TimerState.fresh] at hi

theorem wf_armTimer (s : TimerState) (h : s.wf) : (armTimer s).wf := by
  obtain ⟨hnd, hbound⟩ := h
  refine ⟨?_, ?_⟩
  · simp only [armTimer]
    refine List.nodup_cons.mpr ⟨?_, hnd⟩
    intro hmem
    exact absurd (hbound _ hmem) (lt_irrefl _)
  · intro i hi
    simp only [armTimer] at hi ⊢
    rcases List.mem_cons.mp hi with rfl | hi
    · omega
    · have := hbound i hi
      omega

theorem wf_clearHandle (s : TimerState) (h : s.wf) : (clearHandle s).wf := by
  obtain ⟨hnd, hbound⟩ := h
  cases hh : s.handle with
  | none => simpa [clearHandle, hh] using ⟨hnd, hbound⟩
  | some hd =>
    constructor
    · simpa [clearHandle, hh] using hnd.erase hd
    · intro i hi
      simp only [clearHandle, hh] at hi ⊢
      exact hbound i (List.mem_of_mem_erase hi)

theorem wf_runLife (ops : List LifeOp) (s : TimerState) (h : s.wf) :
    (runLife ops s).wf := by
  induction ops generalizing s with
  | nil => simpa [runLife] using h
  | cons op rest ih =>
    cases op with
    | init => exact ih (armTimer s) (wf_armTimer s h)
    | destroy => exact ih (clearHandle s) (wf_clearHandle s h)

/-- `clearHandle` does not change the stored handle field. -/
theorem clearHandle_handle (s : TimerState) : (clearHandle s).handle = s.handle := by
  cases hh : s.handle with
  | none => simp [clearHandle, hh]
  | some hd => simp [clearHandle, hh]

end Sdo

/-! ## Claim theorems -/

namespace Sdo

/-- Claim C2, as stated, is false: for a url string that the WHATWG URL
constructor rejects (for example the empty string — `new URL ""` throws
a `TypeError` in Node), the executor of the promise throws synchronously
before any request is issued, so the promise returned by `fetchUrl`
rejects instead of resolving. -/
theorem fetchUrl_rejects_on_invalid_url :
    (fetchUrl (fun _ => false) (fun _ => none) (some "")
      (Transport.connectionError "refused")).result.isRejected = true := by
  rfl

/-- Claim C2 (amended): the promise returned by `fetchUrl` rejects
exactly when a url string is supplied that the URL constructor cannot
parse.  In every other case — absent url, or a parseable url with any
transport outcome (connection error, non-2xx status, unparseable body) —
it resolves, with either the parsed payload or null. -/
theorem fetchUrl_rejected_iff_invalid_url
    (urlParses : String → Bool) (jsonParse : String → Option Json)
    (url : Option String) (t : Transport) :
    (fetchUrl urlParses jsonParse url t).result.isRejected = true ↔
      ∃ u, url = some u ∧ urlParses u = false := by
  cases url with
  | none =>
    simp [fetchUrl, FetchResult.isRejected]
  | some u =>
    by_cases hu : urlParses u
    · constructor
      · intro h
        exfalso
        cases t with
        | connectionError msg =>
          simp [fetchUrl, hu, FetchResult.isRejected] at h
        | response statusCode body =>
          revert h
          simp only [fetchUrl, hu, if_pos]
          by_cases hc : (statusCode.getD 0 < 200 || 300 <= statusCode.getD 0) = true
          · simp [hc, FetchResult.isRejected]
          · cases hp : jsonParse body with
            | some j => simp [hc, hp, FetchResult.isRejected]
            | none => simp [hc, hp, FetchResult.isRejected]
      · rintro ⟨v, hv, hfalse⟩
        cases hv
        rw [hu] at hfalse
        exact absurd hfalse (by simp)
    · constructor
      · intro _
        exact ⟨u, rfl, by simpa using hu⟩
      · intro _
        simp [fetchUrl, hu, FetchResult.isRejected]

/-- Claim C9: with an absent url (`null`/`undefined`), `fetchUrl`
resolves immediately to null, issues no network request, and logs no
error — for every model of the URL constructor and of `JSON.parse`, and
whatever the transport would have done. -/
theorem fetchUrl_absent_url_resolves_null
    (urlParses : String → Bool) (jsonParse : String → Option Json) (t : Transport) :
    fetchUrl urlParses jsonParse none t =
      { result := FetchResult.resolved Json.null, requests := 0, errorLogs := 0 } := by
  rfl

/-- Claim C3 (code bug): a poll tick whose fetched payload is the bare
JSON boolean `true` — the very body the repository test feeds and
expects to stop the application — does not invoke the stop callback,
because the code tests `response.stop`, which is `undefined` on a bare
boolean.  The payload is truthy as a bare boolean (second conjunct), and
the object shape with a truthy `stop` field does invoke the callback
(third conjunct), so only the bare-boolean half of the claim fails. -/
theorem stopTick_bare_true_does_not_invoke :
    stopTick (Json.bool true) = false ∧
    jsTruthy (Json.bool true) = true ∧
    stopTick (Json.obj [("stop", Json.bool true)]) = true := by
  exact ⟨rfl, rfl, rfl⟩

/-- Claim C4: the stop flag is monotonic.  Once a tick of the built-in
`StopProvider` has observed a stop signal the tick condition accepts
(so the callback ran and set `stopNeeded`), `shouldStop()` returns
`true` after every further sequence of hub operations — later ticks with
falsy payloads, `stop()`, even re-initialization. -/
theorem sdoShouldStop_monotone_after_stop_signal
    (s : SdoState) (j : Json) (ops : List SdoOp) (h : stopTick j = true) :
    sdoShouldStop (sdoRun (sdoStep s (SdoOp.stopTickFire j)) ops) = true := by
  have hset : (sdoStep s (SdoOp.stopTickFire j)).stopNeeded = true := by
    simp [sdoStep, h]
  exact sdoRun_stopNeeded_mono ops _ hset

/-- Witness for C4: a concrete hub that saw `⦃stop: true⦄` keeps
reporting `shouldStop() = true` through a falsy poll and a `stop()`
call. -/
theorem sdoShouldStop_monotone_after_stop_signal_witness :
    stopTick (Json.obj [("stop", Json.bool true)]) = true ∧
    sdoShouldStop (sdoRun
      (sdoStep SdoState.new (SdoOp.stopTickFire (Json.obj [("stop", Json.bool true)])))
      [SdoOp.stopTickFire (Json.bool false), SdoOp.stopCall]) = true := by
  exact ⟨rfl,
    sdoShouldStop_monotone_after_stop_signal SdoState.new
      (Json.obj [("stop", Json.bool true)])
      [SdoOp.stopTickFire (Json.bool false), SdoOp.stopCall] rfl⟩

/-- Claim C10: calling `stop()` on a hub on which `initialize()` has
never run is a no-op: `allProviders` is still `undefined`, so the
optional chaining attempts zero `destroy()` calls, the state is returned
unchanged, and `shouldStop()` still reports `false`. -/
theorem sdoStop_before_initialize_noop :
    sdoStop SdoState.new = (SdoState.new, 0) ∧ sdoShouldStop SdoState.new = false := by
  exact ⟨rfl, rfl⟩

/-- Claim C7, as stated, is false: when `initialize()` runs twice before
`destroy()`, the second call overwrites `timeoutHandle`, so `destroy()`
cancels only the second timer and the one armed by the first call (id 0)
is still live — leaked — after `destroy()` returns. -/
theorem provider_double_init_leaks_timer :
    (runLife [LifeOp.init, LifeOp.init, LifeOp.destroy] TimerState.fresh).live = [0] := by
  rfl

/-- Claim C7 (amended): each `initialize()` arms exactly one additional
live timer and overwrites the stored handle; `destroy()` disarms only
the timer the handle currently references.  Hence when `initialize()`
was called at most once, no timer armed by the instance remains live
after `destroy()`; when it was called more than once, the earlier timers
are leaked. -/
theorem provider_single_init_no_leak (ops : List LifeOp) (h : countInit ops ≤ 1) :
    (runLife (ops ++ [LifeOp.init]) TimerState.fresh).live.length
        = (runLife ops TimerState.fresh).live.length + 1 ∧
    (runLife (ops ++ [LifeOp.destroy]) TimerState.fresh).live = [] := by
  constructor
  · rw [runLife_append_one, runLife_one_init]
    rfl
  · rw [runLife_append_one, runLife_one_destroy]
    rcases runLife_le_one_init_shape ops h with hemp | ⟨hd, hh, hl⟩
    · cases hhandle : (runLife ops TimerState.fresh).handle with
      | none => simp [clearHandle, hhandle, hemp]
      | some x => simp [clearHandle, hhandle, hemp]
    · simp [clearHandle, hh, hl]

/-- Witness for the amended C7 at a concrete lifecycle: one
`initialize()` call, then `destroy()`. -/
theorem provider_single_init_no_leak_witness :
    countInit [LifeOp.init] ≤ 1 ∧
    ((runLife ([LifeOp.init] ++ [LifeOp.init]) TimerState.fresh).live.length
        = (runLife [LifeOp.init] TimerState.fresh).live.length + 1 ∧
      (runLife ([LifeOp.init] ++ [LifeOp.destroy]) TimerState.fresh).live = []) :=
  ⟨by decide, provider_single_init_no_leak [LifeOp.init] (by decide)⟩

/-- Claim C8, as stated, is false in its second half: after
`initialize()` has run twice, `destroy()` returns with the timer armed
by the first `initialize()` (id 0) still scheduled, and that recurring
timer — which is not an in-flight callback at the moment of cancellation
— keeps firing after `destroy()` returned. -/
theorem provider_destroy_leaked_timer_still_fires :
    0 ∈ (runLife [LifeOp.init, LifeOp.init, LifeOp.destroy] TimerState.fresh).live := by
  decide

/-- Claim C8 (amended): `destroy()` never raises at any point of any
lifecycle — its body only null-checks the handle and calls the Node
clear function, which tolerates cleared handles — and after `destroy()`
returns, the timer its handle referenced is no longer live, so that
timer fires no further callback; only timers orphaned by an earlier
`initialize()` call (when `initialize()` ran more than once) can still
fire. -/
theorem provider_destroy_total_and_disarms_handle (ops : List LifeOp) :
    destroyRun (runLife ops TimerState.fresh)
        = Except.ok (clearHandle (runLife ops TimerState.fresh)) ∧
    ∀ hd, (runLife ops TimerState.fresh).handle = some hd →
      hd ∉ (clearHandle (runLife ops TimerState.fresh)).live := by
  refine ⟨rfl, ?_⟩
  intro hd hh
  have hwf := wf_runLife ops TimerState.fresh wf_fresh
  obtain ⟨hnd, _⟩ := hwf
  simp only [clearHandle, hh]
  exact hnd.not_mem_erase

/-- Witness for the amended C8 at a concrete lifecycle: a single
`initialize()` call, whose handle (timer id 0) is dead after
`destroy()`. -/
theorem provider_destroy_total_and_disarms_handle_witness :
    destroyRun (runLife [LifeOp.init] TimerState.fresh)
        = Except.ok (clearHandle (runLife [LifeOp.init] TimerState.fresh)) ∧
    0 ∉ (clearHandle (runLife [LifeOp.init] TimerState.fresh)).live :=
  ⟨(provider_destroy_total_and_disarms_handle [LifeOp.init]).1,
    (provider_destroy_total_and_disarms_handle [LifeOp.init]).2 0 rfl⟩

/-- Claim C1, as stated, is false: the delay handed to `setTimeout` is
`expirationEpoch - now - buffer` with no clamping whatsoever — there is
no minimum polling interval in the code.  With an expiration already in
the past the armed delay is negative (here -1060000 ms), not at least
some positive minimum. -/
theorem credCycle_negative_delay :
    (credCycleRun
      (some { expirationEpoch := 0,
              credentials := [("AwsAccess",
                { accessKeyId := "AK", secretAccessKey := "SK",
                  sessionToken := "ST", region := "us-east-1" })] })
      1000000
      { accessKeyId := none, secretAccessKey := none,
        sessionToken := none, defaultRegion := none }).timerDelayMs
      = some (-1060000) ∧ (-1060000 : Int) < 0 := by
  exact ⟨rfl, by decide⟩

/-- Claim C1 (amended): on every successful cycle (payload present and
the configured role key found), the timer for the next cycle is armed
with delay exactly `expirationEpoch - now - credentialTimeBufferMs`,
unclamped; that delay is zero or negative precisely when the expiration
is in the past or within the buffer window (`expiration ≤ now + buffer`),
in which case the Node runtime fires the timer essentially immediately —
consecutive fetches are not separated by any guaranteed minimum
interval. -/
theorem credCycle_delay_unclamped (r : CredentialPayload) (nowMs : Int) (env : AwsEnv)
    (c : Credentials) (h : r.credentials.lookup credentialsKey = some c) :
    (credCycleRun (some r) nowMs env).timerDelayMs
        = some (r.expirationEpoch - nowMs - credentialTimeBufferMs) ∧
    (r.expirationEpoch - nowMs - credentialTimeBufferMs ≤ 0 ↔
      r.expirationEpoch ≤ nowMs + credentialTimeBufferMs) := by
  constructor
  · simp [credCycleRun, h]
  · constructor
    · intro hle
      omega
    · intro hle
      omega

/-- Witness for the amended C1 at a concrete successful cycle. -/
theorem credCycle_delay_unclamped_witness :
    (({ expirationEpoch := 500000,
        credentials := [("AwsAccess",
          { accessKeyId := "AK", secretAccessKey := "SK",
            sessionToken := "ST", region := "us-east-1" })] } :
          CredentialPayload).credentials.lookup credentialsKey
      = some { accessKeyId := "AK", secretAccessKey := "SK",
               sessionToken := "ST", region := "us-east-1" }) ∧
    ((credCycleRun
        (some { expirationEpoch := 500000,
                credentials := [("AwsAccess",
                  { accessKeyId := "AK", secretAccessKey := "SK",
                    sessionToken := "ST", region := "us-east-1" })] })
        400000
        { accessKeyId := none, secretAccessKey := none,
          sessionToken := none, defaultRegion := none }).timerDelayMs
        = some ((500000 : Int) - 400000 - credentialTimeBufferMs) ∧
      ((500000 : Int) - 400000 - credentialTimeBufferMs ≤ 0 ↔
        (500000 : Int) ≤ 400000 + credentialTimeBufferMs)) :=
  ⟨by decide,
    credCycle_delay_unclamped
      { expirationEpoch := 500000,
        credentials := [("AwsAccess",
          { accessKeyId := "AK", secretAccessKey := "SK",
            sessionToken := "ST", region := "us-east-1" })] }
      400000
      { accessKeyId := none, secretAccessKey := none,
        sessionToken := none, defaultRegion := none }
      { accessKeyId := "AK", secretAccessKey := "SK",
        sessionToken := "ST", region := "us-east-1" }
      (by decide)⟩

/-- Claim C6: a cycle whose payload is present but lacks the configured
role key in its credentials map writes none of the four environment
slots, logs one error, arms no timer, and does not log the local-run
line — the environment and provider state are exactly as before the
cycle. -/
theorem credCycle_missing_role_key (r : CredentialPayload) (nowMs : Int) (env : AwsEnv)
    (h : r.credentials.lookup credentialsKey = none) :
    credCycleRun (some r) nowMs env
      = { env := env, timerDelayMs := none, errorLogs := 1, localRunLog := false } := by
  simp [credCycleRun, h]

/-- Witness for C6 at a concrete payload whose credentials map carries
only a different role key. -/
theorem credCycle_missing_role_key_witness :
    (({ expirationEpoch := 500000,
        credentials := [("OtherRole",
          { accessKeyId := "AK", secretAccessKey := "SK",
            sessionToken := "ST", region := "us-east-1" })] } :
          CredentialPayload).credentials.lookup credentialsKey = none) ∧
    credCycleRun
      (some { expirationEpoch := 500000,
              credentials := [("OtherRole",
                { accessKeyId := "AK", secretAccessKey := "SK",
                  sessionToken := "ST", region := "us-east-1" })] })
      400000
      { accessKeyId := some "OLD", secretAccessKey := none,
        sessionToken := none, defaultRegion := none }
      = { env := { accessKeyId := some "OLD", secretAccessKey := none,
                   sessionToken := none, defaultRegion := none },
          timerDelayMs := none, errorLogs := 1, localRunLog := false } :=
  ⟨by decide,
    credCycle_missing_role_key
      { expirationEpoch := 500000,
        credentials := [("OtherRole",
          { accessKeyId := "AK", secretAccessKey := "SK",
            sessionToken := "ST", region := "us-east-1" })] }
      400000
      { accessKeyId := some "OLD", secretAccessKey := none,
        sessionToken := none, defaultRegion := none }
      (by decide)⟩

/-- Claim C5: the promise returned by `SdoNotifications.initialize` is
the all-settled join of the provider set (the caller-supplied providers
followed by the built-in `StopProvider`): it always fulfils — whatever
each individual initialization did — and its value records one settled
outcome per provider, where entry `i` depends only on provider `i`'s own
outcome, so one provider's failure never prevents the others from being
started and awaited. -/
theorem hubInit_allSettled {ε : Type} (extraInits : List (Except ε Unit))
    (stopInit : Except ε Unit) :
    ∃ l, hubInitRun extraInits stopInit = Except.ok l ∧
      l.length = extraInits.length + 1 ∧
      ∀ i : Nat, l[i]? = ((extraInits ++ [stopInit])[i]?).map toSettled := by
  refine ⟨(extraInits ++ [stopInit]).map toSettled, rfl, ?_, ?_⟩
  · simp
  · intro i
    simp only [List.getElem?_map]

end Sdo
